import Mathlib

/-!
Shallow embedding of the wedding-site client (TypeScript, Supabase backend).

Strings are modelled as `List Char` (JS strings are char sequences; all the
code's comparisons are character-wise). The remote row store is modelled as a
`List` of row structures; `select` with a filter is `List.filter`, `limit 1`
is `List.take 1`, `insert` appends. Supabase's `.ilike(col, pat)` translates
to PostgreSQL `ILIKE`: case-insensitive `LIKE` with `%` (any sequence) and
`_` (any single character) wildcards. `.eq(col, v)` is plain equality.
`sessionStorage` is a record of the keys the code touches. The happy path of
each async flow is modelled (remote transport failures are a separate,
orthogonal branch of the code that only reports an error).

The two variants present in the repository are both embedded:
* the email variant: `rsvp.ts` (duplicate check by exact email match,
  `number_of_guests` from `parseInt`) with the password-only gate of
  `supabase.ts`;
* the name-verified variant: the RSVP handler keyed by guest name via
  `ilike`, the gate that also checks the last name against the `invitees`
  table, and the admin dashboard with per-invitee RSVP counts.
-/

namespace WeddingSite

/-- JS `String.prototype.trim()` restricted to the whitespace characters the
inputs can realistically contain: drop leading and trailing whitespace. -/
def trimStr (l : List Char) : List Char :=
  ((l.dropWhile Char.isWhitespace).reverse.dropWhile Char.isWhitespace).reverse

/-- JS `String.prototype.toLowerCase()` / SQL `lower`, character-wise. -/
def lowerStr (l : List Char) : List Char :=
  l.map Char.toLower

/-- All suffixes of a list, longest first, ending with `[]`. -/
def tailsL : List Char → List (List Char)
  | [] => [[]]
  | c :: v => (c :: v) :: tailsL v

/-- PostgreSQL `ILIKE pattern` matching (as invoked by supabase-js
`.ilike(column, pattern)`): `%` matches any sequence of characters, `_`
matches exactly one character, any other pattern character matches
case-insensitively. -/
def matchLike : List Char → List Char → Bool
  | [], v => v.isEmpty
  | c :: p, v =>
    if c = '%' then (tailsL v).any (fun s => matchLike p s)
    else
      match v with
      | [] => false
      | c2 :: v2 =>
        (if c = '_' then true else c.toLower == c2.toLower) && matchLike p v2

/-! ## Data model (`supabase.ts` row types) -/

/-- An invitee row (`invitees` table). `id`/`created_at` are server-assigned
and never inspected by the logic under study beyond equality, so `id` is a
`Nat`. -/
structure Invitee where
  id : Nat
  last_name : List Char
  has_plus_one : Bool
  plus_one_name : Option (List Char)
deriving DecidableEq, Repr

/-- An RSVP row in the name-verified variant (`supabase.ts`). -/
structure RsvpName where
  guest_name : List Char
  attending : Bool
  last_name : List Char
  plus_one_attending : Option Bool
  dietary_restrictions : Option (List Char)
  message : Option (List Char)
deriving DecidableEq, Repr

/-- An RSVP row in the email variant. `number_of_guests` is a JS number
produced by `parseInt`; `none` models the JS `NaN` that `parseInt` returns
when it finds no digits (it otherwise always yields an integer). -/
structure RsvpEmail where
  guest_name : List Char
  email : List Char
  phone : Option (List Char)
  attending : Bool
  number_of_guests : Option Int
  dietary_restrictions : Option (List Char)
  message : Option (List Char)
deriving DecidableEq, Repr

/-! ## Session store -/

/-- The string value `'true'` stored under the unlock flag. -/
def trueVal : List Char := ['t', 'r', 'u', 'e']

/-- The string value `'false'` of the negative radio buttons. -/
def falseVal : List Char := ['f', 'a', 'l', 's', 'e']

/-- The per-tab `sessionStorage`, restricted to the two keys the guest gate
touches: `wedding_auth` and `wedding_auth_last_name`. A field holds `none`
when the key is absent (`getItem` returns `null`). -/
structure SessionStore where
  wedding_auth : Option (List Char)
  wedding_auth_last_name : Option (List Char)
deriving DecidableEq, Repr

/-! ## Gate, email variant (`supabase.ts`): password-only -/

/-- `isAuthenticated()` of the password-only gate:
`sessionStorage.getItem(STORAGE_KEY) === 'true'`. -/
def isAuthenticatedE (s : SessionStore) : Bool :=
  s.wedding_auth = some trueVal

/-- `attemptLogin(password)`: on exact match with the configured password,
set the unlock flag and return true; otherwise return false. The configured
`CORRECT_PASSWORD` environment value is the `correct` parameter. Returns the
result together with the session store after the call. -/
def attemptLogin (correct password : List Char) (s : SessionStore) :
    Bool × SessionStore :=
  if password = correct then
    (true, { s with wedding_auth := some trueVal })
  else
    (false, s)

/-- `logout()` of the password-only gate: remove the unlock flag. -/
def logoutE (s : SessionStore) : SessionStore :=
  { s with wedding_auth := none }

/-! ## Gate, name-verified variant (second gate module) -/

/-- `isAuthenticated()` of the name-verified gate: unlock flag is `'true'`
and the matched-last-name key is present. -/
def isAuthenticatedN (s : SessionStore) : Bool :=
  s.wedding_auth = some trueVal ∧ s.wedding_auth_last_name ≠ none

/-- `logout()` of the name-verified gate: remove both keys. -/
def logoutN (_s : SessionStore) : SessionStore :=
  { wedding_auth := none, wedding_auth_last_name := none }

/-- Outcome of one submit of the name-verified gate form. -/
inductive GateResult where
  | wrongPassword
  | nameNotFound
  | unlocked (matched : List Char)
deriving DecidableEq, Repr

/-- One submit of the name-verified gate form (`showPasswordGate`'s submit
handler, happy transport path): trim both inputs; reject on password
mismatch; otherwise query `invitees` with
`.select('last_name').ilike('last_name', lastName).limit(1)`; reject when no
row comes back; else store `wedding_auth = 'true'` and
`wedding_auth_last_name` = the matched row's `last_name`, and unlock.
Returns the outcome and the session store after the call. -/
def gateSubmit (correct : List Char) (invitees : List Invitee)
    (passwordRaw lastNameRaw : List Char) (s : SessionStore) :
    GateResult × SessionStore :=
  let password := trimStr passwordRaw
  let lastName := trimStr lastNameRaw
  if password ≠ correct then
    (GateResult.wrongPassword, s)
  else
    let data :=
      ((invitees.filter (fun i => matchLike lastName i.last_name)).map
        (fun i => i.last_name)).take 1
    match data with
    | [] => (GateResult.nameNotFound, s)
    | m :: _ =>
      (GateResult.unlocked m,
       { wedding_auth := some trueVal, wedding_auth_last_name := some m })

/-! ## RSVP remote operations -/

/-- `checkDuplicate(name)` of the name-verified variant:
`select('id').ilike('guest_name', name).limit(1)` against the `rsvps` table,
then `(data?.length ?? 0) > 0`. -/
def checkDuplicateN (tbl : List RsvpName) (name : List Char) : Bool :=
  0 < ((tbl.filter (fun r => matchLike name r.guest_name)).take 1).length

/-- `checkDuplicate(email)` of the email variant:
`select('id').eq('email', email).limit(1)`, then `(data?.length ?? 0) > 0`. -/
def checkDuplicateE (tbl : List RsvpEmail) (email : List Char) : Bool :=
  0 < ((tbl.filter (fun r => r.email = email)).take 1).length

/-- `submitRsvp(rsvp)`: `insert([rsvp])` appends one row to the table. -/
def submitRsvpN (tbl : List RsvpName) (r : RsvpName) : List RsvpName :=
  tbl ++ [r]

/-- `submitRsvp(rsvp)`, email variant. -/
def submitRsvpE (tbl : List RsvpEmail) (r : RsvpEmail) : List RsvpEmail :=
  tbl ++ [r]

/-! ## JS `parseInt` -/

/-- Value of one character as a digit in the given base, if it is one. -/
def digitVal (base : Nat) (c : Char) : Option Nat :=
  let v : Option Nat :=
    if c.isDigit then some (c.toNat - '0'.toNat)
    else if 'a' ≤ c ∧ c ≤ 'z' then some (c.toNat - 'a'.toNat + 10)
    else if 'A' ≤ c ∧ c ≤ 'Z' then some (c.toNat - 'A'.toNat + 10)
    else none
  match v with
  | some d => if d < base then some d else none
  | none => none

/-- Numeric value of a digit string in the given base. -/
def digitsVal (base : Nat) (ds : List Char) : Nat :=
  ds.foldl (fun acc c => acc * base + ((digitVal base c).getD 0)) 0

/-- The longest digit prefix, interpreted in the given base; `none` (JS
`NaN`) when there is no leading digit. -/
def parseDigits (base : Nat) (sign : Int) (l : List Char) : Option Int :=
  let ds := l.takeWhile (fun c => (digitVal base c).isSome)
  if ds = [] then none else some (sign * (digitsVal base ds : Int))

/-- JS `parseInt(string)` with no radix argument: skip leading whitespace,
read an optional sign, honour a `0x`/`0X` prefix as hexadecimal, then take
the longest run of digits for the radix; `NaN` — modelled as `none` — when
that run is empty. -/
def jsParseInt (s : List Char) : Option Int :=
  let t := s.dropWhile Char.isWhitespace
  let (sign, rest) : Int × List Char :=
    match t with
    | '+' :: r => (1, r)
    | '-' :: r => (-1, r)
    | r => (1, r)
  match rest with
  | '0' :: x :: r =>
    if x = 'x' ∨ x = 'X' then parseDigits 16 sign r
    else parseDigits 10 sign rest
  | _ => parseDigits 10 sign rest

/-! ## RSVP form submit handler, name-verified variant (`initRsvpForm`) -/

/-- Raw form state at the moment of submit: the value of the checked
`attending` radio (if any), the text inputs, and the checked plus-one radio
(if any). -/
structure FormN where
  attendingRaw : Option (List Char)
  guest_name : List Char
  dietary : List Char
  message : List Char
  plusOneRaw : Option (List Char)
deriving DecidableEq, Repr

/-- The user-facing message the handler leaves in `#rsvp-message`. -/
inductive MsgN where
  | fillName
  | alreadyOnList
  | seeYou
  | missYou
deriving DecidableEq, Repr

/-- Observable outcome of one submit in the name-verified variant: the
`rsvps` table afterwards, the message shown, whether the duplicate-check
query and the insert were issued, and whether the submit button ends up
re-enabled. -/
structure SubmitResultN where
  table : List RsvpName
  msg : MsgN
  dupChecked : Bool
  inserted : Bool
  submitEnabled : Bool
deriving DecidableEq, Repr

/-- The submit handler of the name-verified `initRsvpForm` (happy transport
path): read and trim the fields, require a non-empty guest name, run the
duplicate check, and insert the record built exactly as the code builds it
(`last_name: authLastName ?? ''`, empty optionals normalised to absent). -/
def handleSubmitN (tbl : List RsvpName) (authLastName : Option (List Char))
    (f : FormN) : SubmitResultN :=
  let attending := f.attendingRaw = some trueVal
  let guestName := trimStr f.guest_name
  let dietary := trimStr f.dietary
  let message := trimStr f.message
  let plusOneAttending : Option Bool :=
    if f.plusOneRaw = some trueVal then some true
    else if f.plusOneRaw = some falseVal then some false
    else none
  if guestName = [] then
    { table := tbl, msg := MsgN.fillName, dupChecked := false,
      inserted := false, submitEnabled := true }
  else if checkDuplicateN tbl guestName then
    { table := tbl, msg := MsgN.alreadyOnList, dupChecked := true,
      inserted := false, submitEnabled := true }
  else
    let row : RsvpName :=
      { guest_name := guestName, attending := attending,
        last_name := authLastName.getD [],
        plus_one_attending := plusOneAttending,
        dietary_restrictions := if dietary = [] then none else some dietary,
        message := if message = [] then none else some message }
    { table := submitRsvpN tbl row,
      msg := if attending then MsgN.seeYou else MsgN.missYou,
      dupChecked := true, inserted := true, submitEnabled := true }

/-! ## RSVP form submit handler, email variant (`initRsvpForm`) -/

/-- Raw form state of the email variant at the moment of submit. The
guest-count field's raw string is kept as typed: the code applies `parseInt`
to it without validation. -/
structure FormE where
  attendingRaw : Option (List Char)
  guest_name : List Char
  email : List Char
  phone : List Char
  guestsRaw : List Char
  dietary : List Char
  message : List Char
deriving DecidableEq, Repr

/-- The user-facing message of the email variant. -/
inductive MsgE where
  | fillNameAndEmail
  | alreadyOnList
  | seeYou
  | missYou
deriving DecidableEq, Repr

/-- Observable outcome of one submit in the email variant. -/
structure SubmitResultE where
  table : List RsvpEmail
  msg : MsgE
  dupChecked : Bool
  inserted : Bool
  submitEnabled : Bool
deriving DecidableEq, Repr

/-- The submit handler of the email-variant `initRsvpForm` (happy transport
path): trim the text fields, `parseInt` the guest count, require non-empty
name and email, run the duplicate check on the email, and insert the record
the code builds (`number_of_guests: attending ? numberOfGuests : 0`). -/
def handleSubmitE (tbl : List RsvpEmail) (f : FormE) : SubmitResultE :=
  let attending := f.attendingRaw = some trueVal
  let guestName := trimStr f.guest_name
  let email := trimStr f.email
  let phone := trimStr f.phone
  let numberOfGuests := jsParseInt f.guestsRaw
  let dietary := trimStr f.dietary
  let message := trimStr f.message
  if guestName = [] ∨ email = [] then
    { table := tbl, msg := MsgE.fillNameAndEmail, dupChecked := false,
      inserted := false, submitEnabled := true }
  else if checkDuplicateE tbl email then
    { table := tbl, msg := MsgE.alreadyOnList, dupChecked := true,
      inserted := false, submitEnabled := true }
  else
    let row : RsvpEmail :=
      { guest_name := guestName, email := email,
        phone := if phone = [] then none else some phone,
        attending := attending,
        number_of_guests := if attending then numberOfGuests else some 0,
        dietary_restrictions := if dietary = [] then none else some dietary,
        message := if message = [] then none else some message }
    { table := submitRsvpE tbl row,
      msg := if attending then MsgE.seeYou else MsgE.missYou,
      dupChecked := true, inserted := true, submitEnabled := true }

/-! ## Admin dashboard: per-invitee RSVP counts (`renderDashboard` /
`renderInviteesTab`) -/

/-- The `Map<string, number>` of `renderDashboard`, as a partial function
from keys to counts (`get` returning `none` where the map has no entry). -/
def emptyCounts : List Char → Option Nat := fun _ => none

/-- One iteration of the count-building loop of `renderDashboard`: if
`r.last_name` is truthy (non-empty), bump the entry at
`r.last_name.toLowerCase()` via `(get(key) ?? 0) + 1`; otherwise skip the
row. -/
def bumpCount (m : List Char → Option Nat) (r : RsvpName) :
    List Char → Option Nat :=
  if r.last_name ≠ [] then
    let key := lowerStr r.last_name
    fun k => if k = key then some ((m key).getD 0 + 1) else m k
  else m

/-- The count-building loop of `renderDashboard` over the fetched RSVPs. -/
def buildRsvpCounts (rsvps : List RsvpName) : List Char → Option Nat :=
  rsvps.foldl bumpCount emptyCounts

/-- The per-invitee count `renderInviteesTab` displays:
`rsvpCounts.get(inv.last_name.toLowerCase()) ?? 0`. -/
def rsvdCount (counts : List Char → Option Nat) (inv : Invitee) : Nat :=
  (counts (lowerStr inv.last_name)).getD 0

/-! ## Sample concrete values (used to instantiate the theorems) -/

/-- A session store with no keys set (fresh tab). -/
def store0 : SessionStore :=
  { wedding_auth := none, wedding_auth_last_name := none }

/-- An invitee with stored last name `smith` (all lowercase). -/
def invSmith : Invitee :=
  { id := 1, last_name := "smith".data, has_plus_one := false,
    plus_one_name := none }

/-- An invitee with stored last name `SMITH` (all uppercase). -/
def invSmithUpper : Invitee :=
  { id := 2, last_name := "SMITH".data, has_plus_one := true,
    plus_one_name := none }

/-- An invitee whose `last_name` is the empty string. -/
def invEmpty : Invitee :=
  { id := 3, last_name := [], has_plus_one := false, plus_one_name := none }

/-- A name-variant RSVP row for guest `Alex Rivera` of family `smith`. -/
def rowAlex : RsvpName :=
  { guest_name := "Alex Rivera".data, attending := true,
    last_name := "smith".data, plus_one_attending := none,
    dietary_restrictions := none, message := none }

/-- A name-variant RSVP row whose `last_name` is the empty string. -/
def rowNoLast : RsvpName :=
  { guest_name := "Sam".data, attending := true, last_name := [],
    plus_one_attending := none, dietary_restrictions := none,
    message := none }

/-- An email-variant RSVP row. -/
def rowEve : RsvpEmail :=
  { guest_name := "Eve".data, email := "eve@example.com".data, phone := none,
    attending := true, number_of_guests := some 2,
    dietary_restrictions := none, message := none }

/-- A name-variant form submission by `Alex Rivera`, attending. -/
def formAlex : FormN :=
  { attendingRaw := some trueVal, guest_name := "Alex Rivera".data,
    dietary := [], message := [], plusOneRaw := none }

/-- A name-variant form submission with a whitespace-only guest name. -/
def formBlankName : FormN :=
  { attendingRaw := some trueVal, guest_name := "   ".data, dietary := [],
    message := [], plusOneRaw := none }

/-- An email-variant form submission with an empty email field. -/
def formNoEmail : FormE :=
  { attendingRaw := some trueVal, guest_name := "Eve".data, email := [],
    phone := [], guestsRaw := "2".data, dietary := [], message := [] }

/-- An email-variant form submission, attending, whose guest-count field
holds non-numeric text. -/
def formBadCount : FormE :=
  { attendingRaw := some trueVal, guest_name := "Eve".data,
    email := "eve@example.com".data, phone := [], guestsRaw := "abc".data,
    dietary := [], message := [] }

/-! # Theorems -/

/-! ## ILIKE matching lemmas -/

theorem mem_tailsL_nil (v : List Char) : [] ∈ tailsL v := by
  induction v with
  | nil => simp [tailsL]
  | cons c v ih => simp [tailsL, ih]

theorem mem_tailsL_tail (c : Char) (v : List Char) : v ∈ tailsL (c :: v) := by
  cases v with
  | nil => simp [tailsL]
  | cons d w => simp [tailsL]

/-- A pattern matches any value that agrees with it character-wise up to
case: ILIKE subsumes case-insensitive equality. -/
theorem matchLike_of_lower_eq (p v : List Char) (h : lowerStr p = lowerStr v) :
    matchLike p v = true := by
  induction p generalizing v with
  | nil =>
    cases v with
    | nil => simp [matchLike]
    | cons c w => simp [lowerStr] at h
  | cons c p ih =>
    cases v with
    | nil => simp [lowerStr] at h
    | cons c2 v2 =>
      simp only [lowerStr, List.map_cons, List.cons.injEq] at h
      have hv : matchLike p v2 = true := ih v2 h.2
      by_cases hc : c = '%'
      · subst hc
        have hm : matchLike ('%' :: p) (c2 :: v2)
            = (tailsL (c2 :: v2)).any (fun s => matchLike p s) := by
          simp [matchLike]
        rw [hm, List.any_eq_true]
        exact ⟨v2, mem_tailsL_tail c2 v2, hv⟩
      · simp only [matchLike, if_neg hc, Bool.and_eq_true]
        refine ⟨?_, hv⟩
        by_cases hu : c = '_'
        · simp [hu]
        · simp [hu, h.1]

/-- Every string ILIKE-matches itself. -/
theorem matchLike_refl (s : List Char) : matchLike s s = true :=
  matchLike_of_lower_eq s s rfl

/-- The pattern consisting of the single character `%` matches everything. -/
theorem matchLike_percent (v : List Char) : matchLike ['%'] v = true := by
  have hm : matchLike ['%'] v = (tailsL v).any (fun s => matchLike [] s) := by
    simp [matchLike]
  rw [hm, List.any_eq_true]
  exact ⟨[], mem_tailsL_nil v, by simp [matchLike]⟩

/-! ## Duplicate-check lemmas -/

/-- The name-variant duplicate check fires exactly when some row's
`guest_name` ILIKE-matches the key. -/
theorem checkDuplicateN_iff (tbl : List RsvpName) (n : List Char) :
    checkDuplicateN tbl n = true ↔
      ∃ r ∈ tbl, matchLike n r.guest_name = true := by
  simp only [checkDuplicateN, decide_eq_true_eq, List.length_take, Nat.lt_min,
    Nat.lt_irrefl, List.length_pos]
  constructor
  · intro h
    rcases List.exists_mem_of_ne_nil _ h.2 with ⟨r, hr⟩
    exact ⟨r, (List.mem_filter.mp hr).1, (List.mem_filter.mp hr).2⟩
  · rintro ⟨r, hr, hm⟩
    exact ⟨Nat.one_pos,
      List.ne_nil_of_mem (List.mem_filter.mpr ⟨hr, hm⟩)⟩

/-- The email-variant duplicate check fires exactly when some row's `email`
equals the key. -/
theorem checkDuplicateE_iff (tbl : List RsvpEmail) (email : List Char) :
    checkDuplicateE tbl email = true ↔ ∃ r ∈ tbl, r.email = email := by
  simp only [checkDuplicateE, decide_eq_true_eq, List.length_take, Nat.lt_min,
    List.length_pos]
  constructor
  · intro h
    rcases List.exists_mem_of_ne_nil _ h.2 with ⟨r, hr⟩
    have := List.mem_filter.mp hr
    exact ⟨r, this.1, by simpa using this.2⟩
  · rintro ⟨r, hr, hm⟩
    exact ⟨Nat.one_pos,
      List.ne_nil_of_mem (List.mem_filter.mpr ⟨hr, by simpa using hm⟩)⟩

/-! ## Gate lemmas -/

/-- With the correct (trimmed) password and no row ILIKE-matching the
supplied last name, the gate rejects and leaves the store alone. -/
theorem gateSubmit_correct_nomatch (correct : List Char)
    (invitees : List Invitee) (passwordRaw lastNameRaw : List Char)
    (s : SessionStore) (hpw : trimStr passwordRaw = correct)
    (hF : (invitees.filter
        (fun i => matchLike (trimStr lastNameRaw) i.last_name)).map
        (fun i => i.last_name) = []) :
    gateSubmit correct invitees passwordRaw lastNameRaw s
      = (GateResult.nameNotFound, s) := by
  simp [gateSubmit, hpw, hF]

/-- With the correct (trimmed) password and a non-empty ILIKE query result,
the gate unlocks with the first returned row's last name and stores both
session keys. -/
theorem gateSubmit_correct_match (correct : List Char)
    (invitees : List Invitee) (passwordRaw lastNameRaw : List Char)
    (s : SessionStore) (a : List Char) (t : List (List Char))
    (hpw : trimStr passwordRaw = correct)
    (hF : (invitees.filter
        (fun i => matchLike (trimStr lastNameRaw) i.last_name)).map
        (fun i => i.last_name) = a :: t) :
    gateSubmit correct invitees passwordRaw lastNameRaw s
      = (GateResult.unlocked a,
         { wedding_auth := some trueVal,
           wedding_auth_last_name := some a }) := by
  simp [gateSubmit, hpw, hF]

/-! ## Claim C1 -/

/-- C1 (counterexample): with the invitee rows `smith` and `SMITH` and the
supplied last name `Smith`, two rows match case-insensitively — not exactly
one — yet the gate unlocks. This refutes "the gate unlocks iff exactly one
invitee row matches case-insensitively". -/
theorem C1_counterexample :
    ¬ ((gateSubmit "pw".data [invSmith, invSmithUpper] "pw".data
          "Smith".data store0).1 = GateResult.unlocked "smith".data →
       [invSmith, invSmithUpper].countP
          (fun i => lowerStr i.last_name = lowerStr (trimStr "Smith".data))
         = 1) := by
  decide

/-- C1 (amended): when the trimmed secret matches, the gate unlocks iff at
least one invitee row matches the supplied last name as a case-insensitive
LIKE pattern, and the matched name stored is the first matching row's
`last_name`. -/
theorem C1_unlock_iff_match (correct : List Char) (invitees : List Invitee)
    (passwordRaw lastNameRaw : List Char) (s : SessionStore)
    (hpw : trimStr passwordRaw = correct) :
    ((∃ m, (gateSubmit correct invitees passwordRaw lastNameRaw s).1
        = GateResult.unlocked m) ↔
      ∃ i ∈ invitees, matchLike (trimStr lastNameRaw) i.last_name = true) ∧
    ∀ m, (gateSubmit correct invitees passwordRaw lastNameRaw s).1
        = GateResult.unlocked m →
      ((invitees.filter
          (fun i => matchLike (trimStr lastNameRaw) i.last_name)).map
          (fun i => i.last_name)).head? = some m := by
  cases hF : (invitees.filter
      (fun i => matchLike (trimStr lastNameRaw) i.last_name)).map
      (fun i => i.last_name) with
  | nil =>
    rw [gateSubmit_correct_nomatch correct invitees passwordRaw lastNameRaw s
      hpw hF]
    have hfil : invitees.filter
        (fun i => matchLike (trimStr lastNameRaw) i.last_name) = [] := by
      exact List.map_eq_nil_iff.mp hF
    constructor
    · constructor
      · rintro ⟨m, hm⟩
        exact absurd hm (by simp)
      · rintro ⟨i, hi, hm⟩
        have : i ∈ invitees.filter
            (fun i => matchLike (trimStr lastNameRaw) i.last_name) :=
          List.mem_filter.mpr ⟨hi, hm⟩
        rw [hfil] at this
        exact absurd this (List.not_mem_nil i)
    · intro m hm
      exact absurd hm (by simp)
  | cons a t =>
    rw [gateSubmit_correct_match correct invitees passwordRaw lastNameRaw s
      a t hpw hF]
    constructor
    · constructor
      · intro _
        have hfil : invitees.filter
            (fun i => matchLike (trimStr lastNameRaw) i.last_name) ≠ [] := by
          intro h
          rw [h] at hF
          exact absurd hF (by simp)
        rcases List.exists_mem_of_ne_nil _ hfil with ⟨i, hi⟩
        exact ⟨i, (List.mem_filter.mp hi).1, (List.mem_filter.mp hi).2⟩
      · intro _
        exact ⟨a, rfl⟩
    · intro m hm
      have ha : a = m := by simpa using hm
      simp [ha]

/-- C1 (witness): a concrete instance of the amended claim — invitee list
`[smith]`, supplied name `Smith`, correct password: the gate unlocks. -/
theorem C1_witness :
    trimStr "pw".data = "pw".data ∧
    ∃ m, (gateSubmit "pw".data [invSmith] "pw".data "Smith".data store0).1
      = GateResult.unlocked m := by
  refine ⟨by decide, ?_⟩
  exact (C1_unlock_iff_match "pw".data [invSmith] "pw".data "Smith".data
    store0 (by decide)).1.mpr ⟨invSmith, by decide, by decide⟩

/-! ## Claim C3 -/

/-- C3: a login attempt with an incorrect secret leaves the session store
unchanged — both for the email-variant `attemptLogin` and for the
name-verified gate's submit flow, whatever last name is supplied. -/
theorem C3_wrong_secret_no_mutation (correct password : List Char)
    (s : SessionStore) (invitees : List Invitee)
    (passwordRaw lastNameRaw : List Char)
    (hE : password ≠ correct) (hN : trimStr passwordRaw ≠ correct) :
    (attemptLogin correct password s).2 = s ∧
    (gateSubmit correct invitees passwordRaw lastNameRaw s).2 = s := by
  constructor
  · simp [attemptLogin, hE]
  · simp [gateSubmit, hN]

/-- C3 (witness): concrete wrong-secret attempts leave the empty store
unchanged. -/
theorem C3_witness :
    "nope".data ≠ "pw".data ∧ trimStr "nope".data ≠ "pw".data ∧
    (attemptLogin "pw".data "nope".data store0).2 = store0 ∧
    (gateSubmit "pw".data [invSmith] "nope".data "Smith".data store0).2
      = store0 := by
  have h := C3_wrong_secret_no_mutation "pw".data "nope".data store0
    [invSmith] "nope".data "Smith".data (by decide) (by decide)
  exact ⟨by decide, by decide, h.1, h.2⟩

/-! ## Claim C4 -/

/-- C4: with the correct secret and a last name present in the invitee
collection in any casing, the login succeeds: the name-verified gate
unlocks, and the email-variant `attemptLogin` returns true. -/
theorem C4_listed_name_any_casing_unlocks (correct : List Char)
    (s : SessionStore) (invitees : List Invitee)
    (passwordRaw lastNameRaw : List Char)
    (hpw : trimStr passwordRaw = correct)
    (hname : ∃ i ∈ invitees,
      lowerStr i.last_name = lowerStr (trimStr lastNameRaw)) :
    (∃ m, (gateSubmit correct invitees passwordRaw lastNameRaw s).1
      = GateResult.unlocked m) ∧
    (attemptLogin correct correct s).1 = true := by
  refine ⟨?_, by simp [attemptLogin]⟩
  rcases hname with ⟨i, hi, hl⟩
  have hmatch : matchLike (trimStr lastNameRaw) i.last_name = true :=
    matchLike_of_lower_eq _ _ hl.symm
  have hmem : i ∈ invitees.filter
      (fun i => matchLike (trimStr lastNameRaw) i.last_name) :=
    List.mem_filter.mpr ⟨hi, hmatch⟩
  cases hF : (invitees.filter
      (fun i => matchLike (trimStr lastNameRaw) i.last_name)).map
      (fun i => i.last_name) with
  | nil =>
    rw [List.map_eq_nil_iff.mp hF] at hmem
    exact absurd hmem (List.not_mem_nil i)
  | cons a t =>
    exact ⟨a, by
      rw [gateSubmit_correct_match correct invitees passwordRaw lastNameRaw s
        a t hpw hF]⟩

/-- C4 (witness): input `Smith` unlocks against the stored lowercase row
`smith`. -/
theorem C4_witness :
    trimStr "pw".data = "pw".data ∧
    lowerStr invSmith.last_name = lowerStr (trimStr "Smith".data) ∧
    (∃ m, (gateSubmit "pw".data [invSmith] "pw".data "Smith".data store0).1
      = GateResult.unlocked m) ∧
    (attemptLogin "pw".data "pw".data store0).1 = true := by
  have h := C4_listed_name_any_casing_unlocks "pw".data store0 [invSmith]
    "pw".data "Smith".data (by decide) ⟨invSmith, by decide, by decide⟩
  exact ⟨by decide, by decide, h.1, h.2⟩

/-! ## Claim C2 -/

/-- C2: for a non-empty key with no pre-existing matching row, `submit`
followed immediately by `checkDuplicate` with the same key returns true — in
the name variant (key = guest name, ILIKE) and in the email variant
(key = email, exact equality). -/
theorem C2_submit_then_checkDuplicate (tblN : List RsvpName) (rN : RsvpName)
    (tblE : List RsvpEmail) (rE : RsvpEmail)
    (hN : rN.guest_name ≠ [])
    (hNdup : checkDuplicateN tblN rN.guest_name = false)
    (hE : rE.email ≠ [])
    (hEdup : checkDuplicateE tblE rE.email = false) :
    checkDuplicateN (submitRsvpN tblN rN) rN.guest_name = true ∧
    checkDuplicateE (submitRsvpE tblE rE) rE.email = true := by
  constructor
  · exact (checkDuplicateN_iff _ _).mpr
      ⟨rN, by simp [submitRsvpN], matchLike_refl _⟩
  · exact (checkDuplicateE_iff _ _).mpr ⟨rE, by simp [submitRsvpE], rfl⟩

/-- C2 (witness): submitting `Alex Rivera` (name variant) and
`eve@example.com` (email variant) into empty tables makes the immediate
duplicate re-check return true. -/
theorem C2_witness :
    rowAlex.guest_name ≠ [] ∧
    checkDuplicateN [] rowAlex.guest_name = false ∧
    rowEve.email ≠ [] ∧
    checkDuplicateE [] rowEve.email = false ∧
    checkDuplicateN (submitRsvpN [] rowAlex) rowAlex.guest_name = true ∧
    checkDuplicateE (submitRsvpE [] rowEve) rowEve.email = true := by
  have h := C2_submit_then_checkDuplicate [] rowAlex [] rowEve
    (by decide) (by decide) (by decide) (by decide)
  exact ⟨by decide, by decide, by decide, by decide, h.1, h.2⟩

/-! ## Claim C5 -/

/-- C5: when the duplicate check finds an existing matching row (and the
name passed validation), the handler surfaces the already-on-the-list
message, performs no insert — the table is unchanged — and re-enables the
form. -/
theorem C5_duplicate_no_insert (tbl : List RsvpName)
    (auth : Option (List Char)) (f : FormN)
    (hname : trimStr f.guest_name ≠ [])
    (hdup : checkDuplicateN tbl (trimStr f.guest_name) = true) :
    (handleSubmitN tbl auth f).table = tbl ∧
    (handleSubmitN tbl auth f).inserted = false ∧
    (handleSubmitN tbl auth f).msg = MsgN.alreadyOnList ∧
    (handleSubmitN tbl auth f).submitEnabled = true := by
  simp [handleSubmitN, hname, hdup]

/-- C5 (witness): submitting `Alex Rivera` a second time against a table
already holding that guest leaves the table unchanged and reports the
duplicate. -/
theorem C5_witness :
    trimStr formAlex.guest_name ≠ [] ∧
    checkDuplicateN [rowAlex] (trimStr formAlex.guest_name) = true ∧
    (handleSubmitN [rowAlex] (some "smith".data) formAlex).table
      = [rowAlex] ∧
    (handleSubmitN [rowAlex] (some "smith".data) formAlex).inserted
      = false ∧
    (handleSubmitN [rowAlex] (some "smith".data) formAlex).msg
      = MsgN.alreadyOnList := by
  have h := C5_duplicate_no_insert [rowAlex] (some "smith".data) formAlex
    (by decide) (by decide)
  exact ⟨by decide, by decide, h.1, h.2.1, h.2.2.1⟩

/-! ## Claim C6 -/

/-- C6: when the trimmed guest name (name variant) — or the trimmed guest
name or email (email variant) — is empty, the handler reports the
validation error locally and issues no remote call: neither the duplicate
check nor the insert runs, and the table is untouched. -/
theorem C6_validation_stays_local (tblN : List RsvpName)
    (auth : Option (List Char)) (fN : FormN)
    (tblE : List RsvpEmail) (fE : FormE)
    (hN : trimStr fN.guest_name = [])
    (hE : trimStr fE.guest_name = [] ∨ trimStr fE.email = []) :
    handleSubmitN tblN auth fN =
      { table := tblN, msg := MsgN.fillName, dupChecked := false,
        inserted := false, submitEnabled := true } ∧
    handleSubmitE tblE fE =
      { table := tblE, msg := MsgE.fillNameAndEmail, dupChecked := false,
        inserted := false, submitEnabled := true } := by
  constructor
  · simp [handleSubmitN, hN]
  · rcases hE with h | h <;> simp [handleSubmitE, h]

/-- C6 (witness): a whitespace-only guest name (name variant) and an empty
email (email variant) are rejected locally with no remote call. -/
theorem C6_witness :
    trimStr formBlankName.guest_name = [] ∧
    trimStr formNoEmail.email = [] ∧
    handleSubmitN [rowAlex] none formBlankName =
      { table := [rowAlex], msg := MsgN.fillName, dupChecked := false,
        inserted := false, submitEnabled := true } ∧
    handleSubmitE [rowEve] formNoEmail =
      { table := [rowEve], msg := MsgE.fillNameAndEmail, dupChecked := false,
        inserted := false, submitEnabled := true } := by
  have h := C6_validation_stays_local [rowAlex] none formBlankName [rowEve]
    formNoEmail (by decide) (Or.inr (by decide))
  exact ⟨by decide, by decide, h.1, h.2⟩

/-! ## Claim C7 -/

/-- C7: `isAuthenticated` returns false immediately after `logout` (both
variants) and true immediately after a successful login — the email-variant
`attemptLogin` returning true, or the name-verified gate unlocking. -/
theorem C7_logout_then_login_auth (s s2 s3 : SessionStore)
    (correct password : List Char) (invitees : List Invitee)
    (passwordRaw lastNameRaw m : List Char)
    (hE : (attemptLogin correct password s2).1 = true)
    (hN : (gateSubmit correct invitees passwordRaw lastNameRaw s3).1
      = GateResult.unlocked m) :
    isAuthenticatedE (logoutE s) = false ∧
    isAuthenticatedN (logoutN s) = false ∧
    isAuthenticatedE (attemptLogin correct password s2).2 = true ∧
    isAuthenticatedN
      (gateSubmit correct invitees passwordRaw lastNameRaw s3).2 = true := by
  refine ⟨by simp [isAuthenticatedE, logoutE],
    by simp [isAuthenticatedN, logoutN], ?_, ?_⟩
  · by_cases hp : password = correct
    · simp [attemptLogin, hp, isAuthenticatedE, trueVal]
    · simp [attemptLogin, hp] at hE
  · by_cases hp : trimStr passwordRaw = correct
    · cases hF : (invitees.filter
          (fun i => matchLike (trimStr lastNameRaw) i.last_name)).map
          (fun i => i.last_name) with
      | nil =>
        rw [gateSubmit_correct_nomatch correct invitees passwordRaw
          lastNameRaw s3 hp hF] at hN
        exact absurd hN (by simp)
      | cons a t =>
        rw [gateSubmit_correct_match correct invitees passwordRaw
          lastNameRaw s3 a t hp hF]
        simp [isAuthenticatedN]
    · simp [gateSubmit, hp] at hN

/-- C7 (witness): after logging out of the empty store authentication is
false; after the concrete successful logins it is true. -/
theorem C7_witness :
    (attemptLogin "pw".data "pw".data store0).1 = true ∧
    (gateSubmit "pw".data [invSmith] "pw".data "Smith".data store0).1
      = GateResult.unlocked "smith".data ∧
    isAuthenticatedE (logoutE store0) = false ∧
    isAuthenticatedN (logoutN store0) = false ∧
    isAuthenticatedE (attemptLogin "pw".data "pw".data store0).2 = true ∧
    isAuthenticatedN
      (gateSubmit "pw".data [invSmith] "pw".data "Smith".data store0).2
      = true := by
  have h := C7_logout_then_login_auth store0 store0 store0 "pw".data
    "pw".data [invSmith] "pw".data "Smith".data "smith".data
    (by decide) (by decide)
  exact ⟨by decide, by decide, h.1, h.2.1, h.2.2.1, h.2.2.2⟩

/-! ## Claim C8 -/

/-- The count the dashboard's fold accumulates at a non-empty key: the
starting entry plus the number of rows whose lowercased `last_name` is the
key. -/
theorem foldl_bumpCount_getD (rsvps : List RsvpName)
    (m : List Char → Option Nat) (key : List Char) (hk : key ≠ []) :
    ((rsvps.foldl bumpCount m) key).getD 0
      = (m key).getD 0
        + rsvps.countP (fun r => lowerStr r.last_name = key) := by
  induction rsvps generalizing m with
  | nil => simp
  | cons r rs ih =>
    rw [List.foldl_cons, ih (bumpCount m r), List.countP_cons]
    have hstep : ((bumpCount m r) key).getD 0
        = (m key).getD 0
          + (if lowerStr r.last_name = key then 1 else 0) := by
      by_cases hr : r.last_name = []
      · have hkey : ¬ lowerStr ([] : List Char) = key :=
          fun h => hk (by simpa [lowerStr] using h.symm)
        simp [bumpCount, hr, hkey]
      · by_cases hkey : key = lowerStr r.last_name
        · simp [bumpCount, hr, hkey]
        · have hkey2 : ¬ lowerStr r.last_name = key := fun h => hkey h.symm
          simp [bumpCount, hr, hkey, hkey2]
    rw [hstep]
    simp only [decide_eq_true_eq]
    omega

/-- C8 (counterexample): with one fetched invitee whose `last_name` is the
empty string and one fetched RSVP row whose `last_name` is also empty, the
dashboard displays a count of 0 although exactly one fetched row matches
that invitee's last name case-insensitively — the count loop skips rows
with a falsy (empty) `last_name`. -/
theorem C8_counterexample :
    ¬ (rsvdCount (buildRsvpCounts [rowNoLast]) invEmpty
        = [rowNoLast].countP
            (fun r => lowerStr r.last_name = lowerStr invEmpty.last_name)) := by
  decide

/-- C8 (amended): for every invitee with a non-empty `last_name`, the
displayed count equals the number of fetched RSVP rows whose `last_name`
matches the invitee's case-insensitively. -/
theorem C8_invitee_count (rsvps : List RsvpName) (inv : Invitee)
    (h : inv.last_name ≠ []) :
    rsvdCount (buildRsvpCounts rsvps) inv
      = rsvps.countP
          (fun r => lowerStr r.last_name = lowerStr inv.last_name) := by
  have hk : lowerStr inv.last_name ≠ [] := by
    simpa [lowerStr] using h
  have hfold := foldl_bumpCount_getD rsvps emptyCounts
    (lowerStr inv.last_name) hk
  simpa [rsvdCount, buildRsvpCounts, emptyCounts] using hfold

/-- C8 (witness): the invitee `smith` correlates with exactly the one
fetched RSVP row of family `smith`. -/
theorem C8_witness :
    invSmith.last_name ≠ [] ∧
    rsvdCount (buildRsvpCounts [rowAlex, rowNoLast]) invSmith
      = [rowAlex, rowNoLast].countP
          (fun r => lowerStr r.last_name = lowerStr invSmith.last_name) ∧
    rsvdCount (buildRsvpCounts [rowAlex, rowNoLast]) invSmith = 1 := by
  refine ⟨by decide, C8_invitee_count [rowAlex, rowNoLast] invSmith
    (by decide), by decide⟩

/-! ## Claim C9 -/

/-- C9: raw user input reaches the SQL ILIKE pattern, so the input `%`
matches rows it does not equal: on any non-empty RSVP table the duplicate
check for the name `%` reports a duplicate, and on any non-empty invitee
table the name-verified gate (given the correct secret) accepts the last
name `%`, unlocking with the first invitee's stored name. -/
theorem C9_percent_input_matches (r0 : RsvpName) (tl : List RsvpName)
    (correct : List Char) (s : SessionStore) (i0 : Invitee)
    (itl : List Invitee) (passwordRaw : List Char)
    (hpw : trimStr passwordRaw = correct) :
    checkDuplicateN (r0 :: tl) ['%'] = true ∧
    (gateSubmit correct (i0 :: itl) passwordRaw ['%'] s).1
      = GateResult.unlocked i0.last_name := by
  constructor
  · exact (checkDuplicateN_iff _ _).mpr ⟨r0, by simp, matchLike_percent _⟩
  · have htrim : trimStr ['%'] = ['%'] := by decide
    have hmatch : matchLike (trimStr ['%']) i0.last_name = true := by
      rw [htrim]
      exact matchLike_percent _
    have hF : (((i0 :: itl).filter
        (fun i => matchLike (trimStr ['%']) i.last_name)).map
        (fun i => i.last_name))
        = i0.last_name :: ((itl.filter
            (fun i => matchLike (trimStr ['%']) i.last_name)).map
            (fun i => i.last_name)) := by
      simp [List.filter_cons, hmatch]
    rw [gateSubmit_correct_match correct (i0 :: itl) passwordRaw ['%'] s
      _ _ hpw hF]

/-- C9 (witness): the concrete name `%` both trips the duplicate check on a
one-row RSVP table and unlocks the gate against the guest list `[smith]`. -/
theorem C9_witness :
    trimStr "pw".data = "pw".data ∧
    checkDuplicateN [rowAlex] ['%'] = true ∧
    (gateSubmit "pw".data [invSmith] "pw".data ['%'] store0).1
      = GateResult.unlocked invSmith.last_name := by
  have h := C9_percent_input_matches rowAlex [] "pw".data store0 invSmith []
    "pw".data (by decide)
  exact ⟨by decide, h.1, h.2⟩

/-! ## Claim C10 -/

/-- C10: in the email variant the guest-count field is never validated:
whenever a submission with `attending = true` reaches the insert and its
guest-count field does not parse (`parseInt` yields `NaN`, modelled as
`none`), the insert is still attempted and the inserted record carries
`number_of_guests = NaN`. -/
theorem C10_nan_guest_count (tbl : List RsvpEmail) (f : FormE)
    (hname : trimStr f.guest_name ≠ [])
    (hemail : trimStr f.email ≠ [])
    (hdup : checkDuplicateE tbl (trimStr f.email) = false)
    (hatt : f.attendingRaw = some trueVal)
    (hg : jsParseInt f.guestsRaw = none) :
    (handleSubmitE tbl f).inserted = true ∧
    ∃ row : RsvpEmail, (handleSubmitE tbl f).table = tbl ++ [row] ∧
      row.number_of_guests = none := by
  have hcond : ¬ (trimStr f.guest_name = [] ∨ trimStr f.email = []) := by
    simp [hname, hemail]
  simp only [handleSubmitE, submitRsvpE, if_neg hcond, hdup,
    Bool.false_eq_true, if_false]
  constructor
  · simp
  · exact ⟨_, rfl, by simp [hatt, hg]⟩

/-- C10 (witness): the concrete guest-count text `abc` yields an inserted
record with `number_of_guests = NaN`. -/
theorem C10_witness :
    trimStr formBadCount.guest_name ≠ [] ∧
    trimStr formBadCount.email ≠ [] ∧
    checkDuplicateE [] (trimStr formBadCount.email) = false ∧
    formBadCount.attendingRaw = some trueVal ∧
    jsParseInt formBadCount.guestsRaw = none ∧
    (handleSubmitE [] formBadCount).inserted = true ∧
    ∃ row : RsvpEmail, (handleSubmitE [] formBadCount).table = [] ++ [row] ∧
      row.number_of_guests = none := by
  have h := C10_nan_guest_count [] formBadCount (by decide) (by decide)
    (by decide) (by decide) (by decide)
  exact ⟨by decide, by decide, by decide, by decide, by decide, h.1, h.2⟩

end WeddingSite
